import Mathlib

/-!
Verification of the entity-manager core of the `athena` repository
(`src/src/cluster/commands.js`, class `EntityManager`).

The embedding mirrors the JavaScript source.  Configuration mappings are
modelled as ordered association lists of JavaScript values; every entity
class of the source becomes a Lean structure carrying the same
`name`/`path`/`config` data; the parsing methods of `EntityManager`
become pure functions that additionally return, in order, the warning
messages they would log (the logger is the only side channel of the
parsing code).

The classifier predicates (`isFixture`, `isFunctionalTest`, ...,
from `src/utils`) and the entity reference accessors
(`hasTestsRefs`, `getTestsRefs`, ..., from `src/entities/*`) are not part
of the sources under `src/`; they are modelled from the specification and
marked as such on their doc comments.
-/

namespace Athena

/-- A JavaScript value as it occurs in a parsed configuration mapping:
`undefined`, `null`, a boolean, a number, a string, or an array of
reference names. -/
inductive JsValue where
  | vUndefined : JsValue
  | vNull : JsValue
  | vBool : Bool → JsValue
  | vNum : Int → JsValue
  | vStr : String → JsValue
  | vList : List String → JsValue
  deriving DecidableEq, Repr

/-- JavaScript truthiness: `undefined`, `null`, `false`, `0` and `""` are
falsy; every other value (including any array) is truthy. -/
def JsValue.truthy : JsValue → Bool
  | .vUndefined => false
  | .vNull => false
  | .vBool b => b
  | .vNum n => n != 0
  | .vStr s => s != ""
  | .vList _ => true

/-- JavaScript strict equality on the modelled values.  Primitives compare
structurally; two arrays compare by reference, so two separately parsed
arrays are never strictly equal. -/
def jsStrictEq : JsValue → JsValue → Bool
  | .vUndefined, .vUndefined => true
  | .vNull, .vNull => true
  | .vBool a, .vBool b => a == b
  | .vNum a, .vNum b => a == b
  | .vStr a, .vStr b => a == b
  | _, _ => false

/-- A parsed configuration mapping: an ordered association list from field
names to JavaScript values. -/
abbrev Config := List (String × JsValue)

/-- Property access `config[field]`: the value stored under `field`, or
`undefined` when the field is absent. -/
def getField (c : Config) (field : String) : JsValue :=
  match c.find? (fun p => p.1 == field) with
  | some p => p.2
  | none => .vUndefined

/-- A raw test record (`TestFileEntity` instance): the `name` and `path`
derived from the definition file plus its parsed `config` mapping.
Modelled from the spec: `src/entities/testFileEntity` is not under `src/`;
the spec describes a raw record as a name, path, configuration triple. -/
structure TestFile where
  name : String
  path : String
  config : Config
  deriving DecidableEq, Repr

/-- Modelled from the spec: the classifier predicate for fixtures
(`isFixture` of `src/utils`, not under `src/`).  Per the spec each
classifier is a pure predicate over a record's `config` testing a
discriminator field; `"fixture"` is an observed discriminator value. -/
def isFixtureConfig (c : Config) : Bool :=
  getField c "type" == JsValue.vStr "fixture"

/-- Modelled from the spec: the classifier predicate for functional tests
(`isFunctionalTest` of `src/utils`, not under `src/`).  The discriminator
value for functional tests is implied by the model, not observed. -/
def isFunctionalTestConfig (c : Config) : Bool :=
  getField c "type" == JsValue.vStr "test"

/-- Modelled from the spec: the classifier predicate for functional suites
(`isFunctionalSuite` of `src/utils`, not under `src/`); `"suite"` is an
observed discriminator value. -/
def isFunctionalSuiteConfig (c : Config) : Bool :=
  getField c "type" == JsValue.vStr "suite"

/-- Modelled from the spec: the classifier predicate for performance runs
(`isPerformanceRun` of `src/utils`, not under `src/`); `"perfRun"` is an
observed discriminator value. -/
def isPerformanceRunConfig (c : Config) : Bool :=
  getField c "type" == JsValue.vStr "perfRun"

/-- Modelled from the spec: the classifier predicate for performance
patterns (`isPerformancePattern` of `src/utils`, not under `src/`).  The
discriminator value is implied by the model, not observed. -/
def isPerformancePatternConfig (c : Config) : Bool :=
  getField c "type" == JsValue.vStr "perfPattern"

/-- Modelled from the spec: the classifier predicate for performance
suites (`isPerformanceSuite` of `src/utils`, not under `src/`).  The
discriminator value is implied by the model, not observed. -/
def isPerformanceSuiteConfig (c : Config) : Bool :=
  getField c "type" == JsValue.vStr "perfSuite"

/-- Modelled from the spec: read an ordered list of referenced child names
stored under a config-specific field (the entity classes holding these
accessors are not under `src/`); an absent or non-array field reads as the
empty list. -/
def getRefsList (c : Config) (field : String) : List String :=
  match getField c field with
  | .vList xs => xs
  | _ => []

/-- Modelled from the spec: `getTestsRefs` of the functional suite entity
class — the ordered list of test names the suite declares in its config. -/
def getTestsRefs (c : Config) : List String :=
  getRefsList c "tests"

/-- Modelled from the spec: `hasTestsRefs` of the functional suite entity
class — whether the suite declares any test references. -/
def hasTestsRefs (c : Config) : Bool :=
  !(getTestsRefs c).isEmpty

/-- Modelled from the spec: `getPerfPatternsRefs` of the performance suite
entity class — the ordered list of pattern names the suite declares. -/
def getPerfPatternsRefs (c : Config) : List String :=
  getRefsList c "patterns"

/-- Modelled from the spec: `hasPerfPatternRefs` of the performance suite
entity class. -/
def hasPerfPatternRefs (c : Config) : Bool :=
  !(getPerfPatternsRefs c).isEmpty

/-- Modelled from the spec: `getPerfRunsRefs` of the performance pattern
entity class — the ordered list of run names the pattern declares. -/
def getPerfRunsRefs (c : Config) : List String :=
  getRefsList c "runs"

/-- Modelled from the spec: `hasPerfRunsRefs` of the performance pattern
entity class. -/
def hasPerfRunsRefs (c : Config) : Bool :=
  !(getPerfRunsRefs c).isEmpty

/-- Membership test `refs.indexOf(v) !== -1` where `refs` is an array of
name strings and `v` an arbitrary configuration value: only a string value
can match. -/
def jsNameMem (refs : List String) (v : JsValue) : Bool :=
  match v with
  | .vStr s => refs.contains s
  | _ => false

/-- `FixtureEntity` (leaf): name, path and config of its source record. -/
structure FixtureEntity where
  name : String
  path : String
  config : Config
  deriving DecidableEq, Repr

/-- `FunctionalTestEntity` (leaf from the manager's point of view). -/
structure FunctionalTestEntity where
  name : String
  path : String
  config : Config
  deriving DecidableEq, Repr

/-- `FunctionalSuiteEntity`: a container holding the functional tests
attached by `addTest` during resolution, in attachment order. -/
structure FunctionalSuiteEntity where
  name : String
  path : String
  config : Config
  tests : List FunctionalTestEntity
  deriving DecidableEq, Repr

/-- `PerformanceRunEntity` (leaf). -/
structure PerformanceRunEntity where
  name : String
  path : String
  config : Config
  deriving DecidableEq, Repr

/-- `PerformancePatternEntity`: a container holding the performance runs
attached by `addPerformanceRun`, in attachment order. -/
structure PerformancePatternEntity where
  name : String
  path : String
  config : Config
  runs : List PerformanceRunEntity
  deriving DecidableEq, Repr

/-- `PerformanceSuiteEntity`: a container holding the performance patterns
attached by `addPerformancePattern`, in attachment order. -/
structure PerformanceSuiteEntity where
  name : String
  path : String
  config : Config
  patterns : List PerformancePatternEntity
  deriving DecidableEq, Repr

/-- A top-level entity of the manager's entity collection: one of the six
entity classes of `src/entities`. -/
inductive Entity where
  | fixture : FixtureEntity → Entity
  | functionalTest : FunctionalTestEntity → Entity
  | functionalSuite : FunctionalSuiteEntity → Entity
  | performanceRun : PerformanceRunEntity → Entity
  | performancePattern : PerformancePatternEntity → Entity
  | performanceSuite : PerformanceSuiteEntity → Entity
  deriving DecidableEq, Repr

/-- Runtime class check `entity.constructor.name === 'FixtureEntity'`. -/
def Entity.isFixtureEntity : Entity → Bool
  | .fixture _ => true
  | _ => false

/-- Runtime class check
`entity.constructor.name === 'FunctionalSuiteEntity'`. -/
def Entity.isFunctionalSuiteEntity : Entity → Bool
  | .functionalSuite _ => true
  | _ => false

/-- Runtime class check
`entity.constructor.name === 'PerformanceSuiteEntity'`. -/
def Entity.isPerformanceSuiteEntity : Entity → Bool
  | .performanceSuite _ => true
  | _ => false

/-- Runtime class check for the performance run entity class. -/
def Entity.isPerformanceRunEntity : Entity → Bool
  | .performanceRun _ => true
  | _ => false

/-- The `config` carried by an entity (every entity class stores the
config of its source record). -/
def Entity.config : Entity → Config
  | .fixture e => e.config
  | .functionalTest e => e.config
  | .functionalSuite e => e.config
  | .performanceRun e => e.config
  | .performancePattern e => e.config
  | .performanceSuite e => e.config

/-- The `name` carried by an entity. -/
def Entity.name : Entity → String
  | .fixture e => e.name
  | .functionalTest e => e.name
  | .functionalSuite e => e.name
  | .performanceRun e => e.name
  | .performancePattern e => e.name
  | .performanceSuite e => e.name

/-- Modelled from the spec: `hasNoSuiteRefs` of the functional test entity
class (not under `src/`) — whether the test carries no suite
back-reference.  The query result for claims about the construction
pipeline does not depend on this definition because construction never
appends bare functional tests. -/
def Entity.hasNoSuiteRefs (e : Entity) : Bool :=
  (getRefsList e.config "suiteRefs").isEmpty

/-- The log-format tag of functional entity parsing warnings. -/
def functionalLogFormat : String := "[Functional Entity Parsing]"

/-- The log-format tag of performance entity parsing warnings. -/
def performanceLogFormat : String := "[Performance Entity Parsing]"

/-- The warning logged by `_parseFunctionalSuite` when a suite declares no
test references. -/
def warnNoTestRefs (suiteName : String) : String :=
  functionalLogFormat ++ " The \"" ++ suiteName ++
    "\" functional suite has no test references defined."

/-- The warning logged by `_parsePerformanceSuite` when a performance
pattern declares no performance run references. -/
def warnNoRunRefs (patternName : String) : String :=
  performanceLogFormat ++ " The " ++ patternName ++
    " performance pattern has no performance runs referenced."

/-- The warning logged by `_parsePerformanceSuite` when a performance
suite declares no performance pattern references. -/
def warnNoPatternRefs (suiteName : String) : String :=
  performanceLogFormat ++ " The " ++ suiteName ++
    " performance suite has no performance patterns referenced."

/-- The warning logged by `getFunctionalSuiteBy` when a candidate's config
field is absent (falsy). -/
def warnBadArgument (argument : String) : String :=
  "Attempted to filter functional suites by a given argument [" ++
    argument ++ "] that does not exist!"

/-- `new FixtureEntity(name, path, config)` from a test file record. -/
def mkFixtureEntity (tf : TestFile) : FixtureEntity :=
  { name := tf.name, path := tf.path, config := tf.config }

/-- `new FunctionalTestEntity(name, path, config)` from a record. -/
def mkFunctionalTestEntity (tf : TestFile) : FunctionalTestEntity :=
  { name := tf.name, path := tf.path, config := tf.config }

/-- `new PerformanceRunEntity(name, path, config)` from a record. -/
def mkPerformanceRunEntity (tf : TestFile) : PerformanceRunEntity :=
  { name := tf.name, path := tf.path, config := tf.config }

/-- `EntityManager._parseFixtures`: filter the test files classified as
fixtures and instantiate a fixture entity per record, preserving
discovery order.  This method logs nothing. -/
def parseFixtures (testFiles : List TestFile) : List Entity :=
  (testFiles.filter (fun tf => isFixtureConfig tf.config)).map
    (fun tf => Entity.fixture (mkFixtureEntity tf))

/-- `EntityManager._parsePerfRuns`: filter the test files classified as
performance runs and instantiate a performance run entity per record,
preserving discovery order.  The method is defined on the manager but
`_parseEntities` never invokes it. -/
def parsePerfRuns (testFiles : List TestFile) : List Entity :=
  (testFiles.filter (fun tf => isPerformanceRunConfig tf.config)).map
    (fun tf => Entity.performanceRun (mkPerformanceRunEntity tf))

/-- `EntityManager._parseFunctionalSuite`: build a functional suite entity
from the record; when the suite declares no test references, warn and
leave the tests empty; otherwise iterate the pool of functional-test
records in discovery order, skip (`continue`) every record whose name is
not in the declared list (`testRefs.indexOf(testName) === -1`), and attach
a fresh functional test entity for every record whose name is.  Returns
the suite entity together with the warnings logged. -/
def parseFunctionalSuite (testFiles : List TestFile) (suite : TestFile) :
    FunctionalSuiteEntity × List String :=
  let FunctionalSuiteInstance : FunctionalSuiteEntity :=
    { name := suite.name, path := suite.path, config := suite.config,
      tests := [] }
  if !(hasTestsRefs suite.config) then
    (FunctionalSuiteInstance, [warnNoTestRefs suite.name])
  else
    let testRefs := getTestsRefs suite.config
    let onlyFunctionalTests :=
      testFiles.filter (fun tf => isFunctionalTestConfig tf.config)
    let attachedTests :=
      (onlyFunctionalTests.filter
        (fun tf => testRefs.contains tf.name)).map mkFunctionalTestEntity
    ({ FunctionalSuiteInstance with tests := attachedTests }, [])

/-- `EntityManager._parseFunctionalTests`: parse every record classified
as a functional suite, in discovery order, and append the resulting suite
entities to the collection. -/
def parseFunctionalTests (testFiles : List TestFile) :
    List Entity × List String :=
  let onlyFunctionalSuites :=
    (testFiles.filter (fun tf => isFunctionalSuiteConfig tf.config)).map
      (parseFunctionalSuite testFiles)
  (onlyFunctionalSuites.map (fun p => Entity.functionalSuite p.1),
    (onlyFunctionalSuites.map Prod.snd).flatten)

/-- The inner pattern resolution of `EntityManager._parsePerformanceSuite`
(the body of its `for (const perfPattern of onlyAssociatedPerfPatterns)`
loop): build a performance pattern entity; when the pattern declares run
references, attach a fresh performance run entity for every record
classified as a performance run whose config `name` is in the declared
list (`referencedPerfRuns.indexOf(entityConfig.name) !== -1`); otherwise
warn and leave the runs empty. -/
def parsePerformancePattern (testFiles : List TestFile)
    (perfPattern : TestFile) : PerformancePatternEntity × List String :=
  let PerformancePatternInstance : PerformancePatternEntity :=
    { name := perfPattern.name, path := perfPattern.path,
      config := perfPattern.config, runs := [] }
  if hasPerfRunsRefs perfPattern.config then
    let referencedPerfRuns := getPerfRunsRefs perfPattern.config
    let onlyAssociatedPerfRuns :=
      testFiles.filter (fun tf =>
        isPerformanceRunConfig tf.config &&
          jsNameMem referencedPerfRuns (getField tf.config "name"))
    ({ PerformancePatternInstance with
        runs := onlyAssociatedPerfRuns.map mkPerformanceRunEntity }, [])
  else
    (PerformancePatternInstance, [warnNoRunRefs perfPattern.name])

/-- `EntityManager._parsePerformanceSuite`: build a performance suite
entity; when the suite declares pattern references, resolve (per
`isPerformancePattern(entity) &&
referencedPerfPatterns.indexOf(entityConfig.name) !== -1`) and attach the
associated performance patterns, each with its own run resolution;
otherwise warn and leave the patterns empty. -/
def parsePerformanceSuite (testFiles : List TestFile) (suite : TestFile) :
    PerformanceSuiteEntity × List String :=
  let PerformanceSuiteInstance : PerformanceSuiteEntity :=
    { name := suite.name, path := suite.path, config := suite.config,
      patterns := [] }
  if hasPerfPatternRefs suite.config then
    let referencedPerfPatterns := getPerfPatternsRefs suite.config
    let onlyAssociatedPerfPatterns :=
      testFiles.filter (fun tf =>
        isPerformancePatternConfig tf.config &&
          jsNameMem referencedPerfPatterns (getField tf.config "name"))
    let parsedPatterns :=
      onlyAssociatedPerfPatterns.map (parsePerformancePattern testFiles)
    ({ PerformanceSuiteInstance with
        patterns := parsedPatterns.map Prod.fst },
      (parsedPatterns.map Prod.snd).flatten)
  else
    (PerformanceSuiteInstance, [warnNoPatternRefs suite.name])

/-- `EntityManager._parsePerformanceTests`: parse every record classified
as a performance suite, in discovery order, and insert the resulting
suite entities at the end of the collection. -/
def parsePerformanceTests (testFiles : List TestFile) :
    List Entity × List String :=
  let performanceSuites :=
    (testFiles.filter (fun tf => isPerformanceSuiteConfig tf.config)).map
      (parsePerformanceSuite testFiles)
  (performanceSuites.map (fun p => Entity.performanceSuite p.1),
    (performanceSuites.map Prod.snd).flatten)

/-- `EntityManager._parseEntities`, the construction pipeline: parse the
test files, then append the fixtures, then the functional suites, then
the performance suites.  `_parsePerfRuns` is NOT invoked.  Returns the
final entity collection together with all warnings logged, in order. -/
def parseEntities (testFiles : List TestFile) :
    List Entity × List String :=
  let fixtures := parseFixtures testFiles
  let functional := parseFunctionalTests testFiles
  let performance := parsePerformanceTests testFiles
  (fixtures ++ functional.1 ++ performance.1,
    functional.2 ++ performance.2)

/-- `EntityManager.getAllFunctionalSuites`: the entities whose runtime
class is `FunctionalSuiteEntity` (the `entity &&` truthiness guard of the
source is vacuous on objects). -/
def getAllFunctionalSuites (entities : List Entity) : List Entity :=
  entities.filter (fun e => e.isFunctionalSuiteEntity)

/-- `EntityManager.getAllPerformanceSuites`. -/
def getAllPerformanceSuites (entities : List Entity) : List Entity :=
  entities.filter (fun e => e.isPerformanceSuiteEntity)

/-- `EntityManager.getAllFixtures` (list form). -/
def getAllFixtures (entities : List Entity) : List Entity :=
  entities.filter (fun e => e.isFixtureEntity)

/-- `EntityManager.getIndieFunctionalTests`: the entities classified as
functional tests by the config classifier that carry no suite
back-reference.  `&&` short-circuits, so `hasNoSuiteRefs` is only reached
on entities the classifier accepts. -/
def getIndieFunctionalTests (entities : List Entity) : List Entity :=
  entities.filter (fun e =>
    isFunctionalTestConfig e.config && e.hasNoSuiteRefs)

/-- The filter callback of `EntityManager.getFunctionalSuiteBy`, including
its logging side effect: keep the candidate exactly when its config field
is truthy and strictly equal to the value; when the field is falsy, log
the bad-argument warning and drop the candidate. -/
def suiteScan (argument : String) (value : JsValue)
    (suites : List Entity) : List Entity × List String :=
  suites.foldr
    (fun fs acc =>
      if (getField fs.config argument).truthy then
        (if jsStrictEq (getField fs.config argument) value then
            fs :: acc.1
          else acc.1,
          acc.2)
      else
        (acc.1, warnBadArgument argument :: acc.2))
    ([], [])

/-- `EntityManager.getFunctionalSuiteBy`: filter the functional suites by
the config-field comparison and return the first kept candidate
(`L.first` of an empty list is `undefined`, modelled as `none`), together
with the warnings logged. -/
def getFunctionalSuiteBy (entities : List Entity) (argument : String)
    (value : JsValue) : Option Entity × List String :=
  let allFunctionalSuites := getAllFunctionalSuites entities
  let scanned := suiteScan argument value allFunctionalSuites
  (scanned.1.head?, scanned.2)

/-! Concrete records used to exercise the pipeline. -/

/-- A record classified as a fixture. -/
def tfFixtureF : TestFile :=
  { name := "F", path := "/tests/f.yaml",
    config := [("type", JsValue.vStr "fixture"), ("name", JsValue.vStr "F")] }

/-- A record classified as a functional test, named `A`. -/
def tfTestA : TestFile :=
  { name := "A", path := "/tests/a.yaml",
    config := [("type", JsValue.vStr "test"), ("name", JsValue.vStr "A")] }

/-- A second record classified as a functional test, also named `A`,
loaded from a different file. -/
def tfTestA2 : TestFile :=
  { name := "A", path := "/tests/a2.yaml",
    config := [("type", JsValue.vStr "test"), ("name", JsValue.vStr "A")] }

/-- A record classified as a functional test, named `B`. -/
def tfTestB : TestFile :=
  { name := "B", path := "/tests/b.yaml",
    config := [("type", JsValue.vStr "test"), ("name", JsValue.vStr "B")] }

/-- A record classified as a functional test, named `C`. -/
def tfTestC : TestFile :=
  { name := "C", path := "/tests/c.yaml",
    config := [("type", JsValue.vStr "test"), ("name", JsValue.vStr "C")] }

/-- A functional suite record declaring the test references
`[A, C, Z]`; no record named `Z` exists. -/
def tfSuiteACZ : TestFile :=
  { name := "S", path := "/tests/s.yaml",
    config := [("type", JsValue.vStr "suite"), ("name", JsValue.vStr "S"),
      ("tests", JsValue.vList ["A", "C", "Z"])] }

/-- A functional suite record declaring no test references. -/
def tfSuiteNoRefs : TestFile :=
  { name := "S0", path := "/tests/s0.yaml",
    config := [("type", JsValue.vStr "suite"),
      ("name", JsValue.vStr "S0")] }

/-- A functional suite record whose config carries the field `flag` with
the falsy value `false`. -/
def tfSuiteFalsy : TestFile :=
  { name := "SF", path := "/tests/sf.yaml",
    config := [("type", JsValue.vStr "suite"), ("name", JsValue.vStr "SF"),
      ("flag", JsValue.vBool false),
      ("tests", JsValue.vList ["A"])] }

/-- A record classified as a performance run, named `R`. -/
def tfPerfRunR : TestFile :=
  { name := "R", path := "/tests/r.yaml",
    config := [("type", JsValue.vStr "perfRun"),
      ("name", JsValue.vStr "R")] }

/-- A second record classified as a performance run, also named `R`. -/
def tfPerfRunR2 : TestFile :=
  { name := "R", path := "/tests/r2.yaml",
    config := [("type", JsValue.vStr "perfRun"),
      ("name", JsValue.vStr "R")] }

/-- A performance pattern record named `P` declaring the run references
`[R, RR]`; no record named `RR` exists. -/
def tfPerfPatternP : TestFile :=
  { name := "P", path := "/tests/p.yaml",
    config := [("type", JsValue.vStr "perfPattern"),
      ("name", JsValue.vStr "P"),
      ("runs", JsValue.vList ["R", "RR"])] }

/-- A performance pattern record named `Q` declaring no run references. -/
def tfPerfPatternQ : TestFile :=
  { name := "Q", path := "/tests/q.yaml",
    config := [("type", JsValue.vStr "perfPattern"),
      ("name", JsValue.vStr "Q")] }

/-- A performance suite record declaring the pattern references
`[P, X]`; no record named `X` exists. -/
def tfPerfSuitePS : TestFile :=
  { name := "PS", path := "/tests/ps.yaml",
    config := [("type", JsValue.vStr "perfSuite"),
      ("name", JsValue.vStr "PS"),
      ("patterns", JsValue.vList ["P", "X"])] }

/-- A performance suite record declaring no pattern references. -/
def tfPerfSuiteNoRefs : TestFile :=
  { name := "PS0", path := "/tests/ps0.yaml",
    config := [("type", JsValue.vStr "perfSuite"),
      ("name", JsValue.vStr "PS0")] }

/-! Helper lemmas. -/

/-- The head of a filtered list is its first satisfying element. -/
theorem head_of_filter_eq_find {α : Type} (p : α → Bool) (l : List α) :
    (l.filter p).head? = l.find? p := by
  induction l with
  | nil => rfl
  | cons a t ih =>
    by_cases h : p a = true
    · simp [List.filter_cons, List.find?_cons, h]
    · simp only [Bool.not_eq_true] at h
      simp [List.filter_cons, List.find?_cons, h, ih]

/-- The match predicate realised by `getFunctionalSuiteBy`'s filter
callback: the config field is truthy and strictly equal to the value. -/
def suiteMatch (argument : String) (value : JsValue) (e : Entity) : Bool :=
  (getField e.config argument).truthy &&
    jsStrictEq (getField e.config argument) value

/-- The kept candidates of the scan are exactly the matching suites, in
order. -/
theorem suiteScan_fst (argument : String) (value : JsValue)
    (suites : List Entity) :
    (suiteScan argument value suites).1 =
      suites.filter (suiteMatch argument value) := by
  induction suites with
  | nil => rfl
  | cons a t ih =>
    by_cases h : (getField a.config argument).truthy = true
    · by_cases h2 : jsStrictEq (getField a.config argument) value = true
      · simp [suiteScan, List.foldr_cons, h, h2, List.filter_cons,
          suiteMatch, ← ih, suiteScan]
      · simp only [Bool.not_eq_true] at h2
        simp [suiteScan, List.foldr_cons, h, h2, List.filter_cons,
          suiteMatch, ← ih, suiteScan]
    · simp only [Bool.not_eq_true] at h
      simp [suiteScan, List.foldr_cons, h, List.filter_cons, suiteMatch,
        ← ih, suiteScan]

/-- The scan logs one bad-argument warning per candidate whose config
field is falsy. -/
theorem suiteScan_snd_length (argument : String) (value : JsValue)
    (suites : List Entity) :
    (suiteScan argument value suites).2.length =
      suites.countP (fun e => !(getField e.config argument).truthy) := by
  induction suites with
  | nil => rfl
  | cons a t ih =>
    by_cases h : (getField a.config argument).truthy = true
    · by_cases h2 : jsStrictEq (getField a.config argument) value = true
      · simp [suiteScan, List.foldr_cons, h, h2, List.countP_cons,
          ← ih, suiteScan]
      · simp only [Bool.not_eq_true] at h2
        simp [suiteScan, List.foldr_cons, h, h2, List.countP_cons,
          ← ih, suiteScan]
    · simp only [Bool.not_eq_true] at h
      simp [suiteScan, List.foldr_cons, h, List.countP_cons, ← ih,
        suiteScan]

/-- The result of `getFunctionalSuiteBy` is the first functional suite
matching the field comparison. -/
theorem getFunctionalSuiteBy_fst (entities : List Entity)
    (argument : String) (value : JsValue) :
    (getFunctionalSuiteBy entities argument value).1 =
      (getAllFunctionalSuites entities).find?
        (suiteMatch argument value) := by
  show ((suiteScan argument value (getAllFunctionalSuites entities)).1.head?,
    (suiteScan argument value (getAllFunctionalSuites entities)).2).1 = _
  rw [suiteScan_fst]
  exact head_of_filter_eq_find _ _

/-- `getFunctionalSuiteBy` logs one warning per functional suite whose
config field is falsy. -/
theorem getFunctionalSuiteBy_snd_length (entities : List Entity)
    (argument : String) (value : JsValue) :
    (getFunctionalSuiteBy entities argument value).2.length =
      (getAllFunctionalSuites entities).countP
        (fun e => !(getField e.config argument).truthy) := by
  show ((suiteScan argument value (getAllFunctionalSuites entities)).1.head?,
    (suiteScan argument value (getAllFunctionalSuites entities)).2).2.length = _
  rw [suiteScan_snd_length]

/-- `_parseFunctionalSuite` copies the record's name onto the suite
entity. -/
theorem parseFunctionalSuite_name (testFiles : List TestFile)
    (suite : TestFile) :
    (parseFunctionalSuite testFiles suite).1.name = suite.name := by
  unfold parseFunctionalSuite
  by_cases h : hasTestsRefs suite.config <;> simp [h]

/-- `_parseFunctionalSuite` copies the record's config onto the suite
entity. -/
theorem parseFunctionalSuite_config (testFiles : List TestFile)
    (suite : TestFile) :
    (parseFunctionalSuite testFiles suite).1.config = suite.config := by
  unfold parseFunctionalSuite
  by_cases h : hasTestsRefs suite.config <;> simp [h]

/-- `_parsePerformanceSuite` copies the record's name onto the suite
entity. -/
theorem parsePerformanceSuite_name (testFiles : List TestFile)
    (suite : TestFile) :
    (parsePerformanceSuite testFiles suite).1.name = suite.name := by
  unfold parsePerformanceSuite
  by_cases h : hasPerfPatternRefs suite.config <;> simp [h]

/-- `_parsePerformanceSuite` copies the record's config onto the suite
entity. -/
theorem parsePerformanceSuite_config (testFiles : List TestFile)
    (suite : TestFile) :
    (parsePerformanceSuite testFiles suite).1.config = suite.config := by
  unfold parsePerformanceSuite
  by_cases h : hasPerfPatternRefs suite.config <;> simp [h]

/-! Claim C1. -/

/-- Claim C1, counterexample: a directory containing exactly one
`perfRun`-typed record does NOT yield a collection containing one
standalone Performance Run entity — the construction pipeline
(`_parseEntities`) never invokes `_parsePerfRuns`, so the collection is
empty. -/
theorem claim1_counterexample :
    ((parseEntities [tfPerfRunR]).1.countP
      (fun e => e.isPerformanceRunEntity) = 0) ∧
    (parseEntities [tfPerfRunR]).1 = [] := by
  constructor <;> rfl

/-- Claim C1 as amended: the `_parsePerfRuns` method, when invoked, turns
every `perfRun`-classified record into a top-level Performance Run entity
in discovery order; but `_parseEntities` never invokes it, so for every
input the constructed collection contains zero Performance Run
entities. -/
theorem claim1_perf_runs_not_in_construction (files : List TestFile) :
    ((parseEntities files).1.countP
      (fun e => e.isPerformanceRunEntity) = 0) ∧
    ((parsePerfRuns files).length =
      (files.filter (fun tf => isPerformanceRunConfig tf.config)).length) ∧
    ((parsePerfRuns files).all (fun e => e.isPerformanceRunEntity)
      = true) ∧
    ((parsePerfRuns files).map Entity.name =
      (files.filter (fun tf =>
        isPerformanceRunConfig tf.config)).map TestFile.name) := by
  refine ⟨?_, ?_, ?_, ?_⟩
  · show ((parseFixtures files ++ (parseFunctionalTests files).1 ++
      (parsePerformanceTests files).1).countP
        (fun e => e.isPerformanceRunEntity)) = 0
    rw [List.countP_append, List.countP_append]
    have h1 : (parseFixtures files).countP
        (fun e => e.isPerformanceRunEntity) = 0 := by
      rw [List.countP_eq_zero]
      intro e he
      rw [parseFixtures] at he
      simp only [List.mem_map, List.mem_filter] at he
      obtain ⟨tf, _, rfl⟩ := he
      simp [Entity.isPerformanceRunEntity]
    have h2 : ((parseFunctionalTests files).1).countP
        (fun e => e.isPerformanceRunEntity) = 0 := by
      rw [List.countP_eq_zero]
      intro e he
      rw [parseFunctionalTests] at he
      simp only [List.mem_map, List.mem_filter] at he
      obtain ⟨p, _, rfl⟩ := he
      simp [Entity.isPerformanceRunEntity]
    have h3 : ((parsePerformanceTests files).1).countP
        (fun e => e.isPerformanceRunEntity) = 0 := by
      rw [List.countP_eq_zero]
      intro e he
      rw [parsePerformanceTests] at he
      simp only [List.mem_map, List.mem_filter] at he
      obtain ⟨p, _, rfl⟩ := he
      simp [Entity.isPerformanceRunEntity]
    rw [h1, h2, h3]
  · rw [parsePerfRuns, List.length_map]
  · rw [List.all_eq_true]
    intro e he
    rw [parsePerfRuns] at he
    simp only [List.mem_map, List.mem_filter] at he
    obtain ⟨tf, _, rfl⟩ := he
    rfl
  · rw [parsePerfRuns, List.map_map]
    rfl

/-! Claim C4. -/

/-- Claim C4: a container record that declares no child references still
yields a container entity with an empty child sequence plus exactly one
warning log call, and never an error: a functional suite with no test
references gets empty tests plus one warning, a performance suite with no
pattern references gets an empty pattern sequence plus exactly one
warning, and a performance pattern with no run references gets empty runs
plus one warning. -/
theorem claim4_no_refs_warn_and_empty (files : List TestFile)
    (s q pf : TestFile)
    (h1 : hasTestsRefs s.config = false)
    (h2 : hasPerfPatternRefs q.config = false)
    (h3 : hasPerfRunsRefs pf.config = false) :
    ((parseFunctionalSuite files s).1.tests = [] ∧
      (parseFunctionalSuite files s).2.length = 1) ∧
    ((parsePerformanceSuite files q).1.patterns = [] ∧
      (parsePerformanceSuite files q).2.length = 1) ∧
    ((parsePerformancePattern files pf).1.runs = [] ∧
      (parsePerformancePattern files pf).2.length = 1) := by
  refine ⟨⟨?_, ?_⟩, ⟨?_, ?_⟩, ⟨?_, ?_⟩⟩ <;>
    simp [parseFunctionalSuite, parsePerformanceSuite,
      parsePerformancePattern, h1, h2, h3]

/-- Claim C4, witness: the concrete refs-free functional suite `S0`,
performance suite `PS0` and performance pattern `Q` each yield an empty
child sequence and exactly one warning. -/
theorem claim4_witness :
    (hasTestsRefs tfSuiteNoRefs.config = false ∧
      hasPerfPatternRefs tfPerfSuiteNoRefs.config = false ∧
      hasPerfRunsRefs tfPerfPatternQ.config = false) ∧
    (((parseFunctionalSuite [tfSuiteNoRefs, tfPerfSuiteNoRefs,
          tfPerfPatternQ] tfSuiteNoRefs).1.tests = [] ∧
      (parseFunctionalSuite [tfSuiteNoRefs, tfPerfSuiteNoRefs,
          tfPerfPatternQ] tfSuiteNoRefs).2.length = 1) ∧
    ((parsePerformanceSuite [tfSuiteNoRefs, tfPerfSuiteNoRefs,
          tfPerfPatternQ] tfPerfSuiteNoRefs).1.patterns = [] ∧
      (parsePerformanceSuite [tfSuiteNoRefs, tfPerfSuiteNoRefs,
          tfPerfPatternQ] tfPerfSuiteNoRefs).2.length = 1) ∧
    ((parsePerformancePattern [tfSuiteNoRefs, tfPerfSuiteNoRefs,
          tfPerfPatternQ] tfPerfPatternQ).1.runs = [] ∧
      (parsePerformancePattern [tfSuiteNoRefs, tfPerfSuiteNoRefs,
          tfPerfPatternQ] tfPerfPatternQ).2.length = 1)) :=
  ⟨⟨by decide, by decide, by decide⟩,
    claim4_no_refs_warn_and_empty
      [tfSuiteNoRefs, tfPerfSuiteNoRefs, tfPerfPatternQ]
      tfSuiteNoRefs tfPerfSuiteNoRefs tfPerfPatternQ
      (by decide) (by decide) (by decide)⟩

/-- Claim C1 (amended), witness: on the concrete directory holding the
`perfRun` record `R` and the fixture `F`, construction yields zero
top-level performance run entities while `_parsePerfRuns`, invoked
directly, would yield exactly the one for `R`. -/
theorem claim1_witness :
    ((parseEntities [tfPerfRunR, tfFixtureF]).1.countP
      (fun e => e.isPerformanceRunEntity) = 0) ∧
    ((parsePerfRuns [tfPerfRunR, tfFixtureF]).length =
      ([tfPerfRunR, tfFixtureF].filter (fun tf =>
        isPerformanceRunConfig tf.config)).length) ∧
    ((parsePerfRuns [tfPerfRunR, tfFixtureF]).all
      (fun e => e.isPerformanceRunEntity) = true) ∧
    ((parsePerfRuns [tfPerfRunR, tfFixtureF]).map Entity.name =
      ([tfPerfRunR, tfFixtureF].filter (fun tf =>
        isPerformanceRunConfig tf.config)).map TestFile.name) :=
  claim1_perf_runs_not_in_construction [tfPerfRunR, tfFixtureF]

/-! Claim C2. -/

/-- Claim C2: for a functional suite record with a non-empty declared
test-reference list, resolution attaches exactly one freshly instantiated
functional test entity — carrying the record's name, path and config
unchanged — per `functionalTest`-classified record whose name appears in
the declared list, iterated in the global functional-test pool order
(file-discovery order), not declaration order; declared names with no
matching record contribute nothing, and no warning is logged. -/
theorem claim2_suite_test_resolution (files : List TestFile)
    (s : TestFile) (h : hasTestsRefs s.config = true) :
    ((parseFunctionalSuite files s).1.tests =
      (files.filter (fun tf =>
        isFunctionalTestConfig tf.config &&
          (getTestsRefs s.config).contains tf.name)).map
        mkFunctionalTestEntity) ∧
    (parseFunctionalSuite files s).2 = [] := by
  unfold parseFunctionalSuite
  rw [h]
  simp only [Bool.not_true, Bool.false_eq_true, if_false]
  refine ⟨?_, trivial⟩
  rw [List.filter_filter]
  congr 1
  apply List.filter_congr
  intro tf _
  rw [Bool.and_comm]

/-- Claim C2, witness: the suite `S` declaring `[A, C, Z]` against the
pool `A, B, C` attaches exactly the tests named `A` and `C`, in pool
order, with no warning; the unmatched name `Z` contributes nothing. -/
theorem claim2_witness :
    hasTestsRefs tfSuiteACZ.config = true ∧
    ((parseFunctionalSuite [tfTestA, tfTestB, tfTestC]
        tfSuiteACZ).1.tests.map FunctionalTestEntity.name = ["A", "C"]) ∧
    (((parseFunctionalSuite [tfTestA, tfTestB, tfTestC]
          tfSuiteACZ).1.tests =
        ([tfTestA, tfTestB, tfTestC].filter (fun tf =>
          isFunctionalTestConfig tf.config &&
            (getTestsRefs tfSuiteACZ.config).contains tf.name)).map
          mkFunctionalTestEntity) ∧
      (parseFunctionalSuite [tfTestA, tfTestB, tfTestC]
        tfSuiteACZ).2 = []) :=
  ⟨by decide, by decide,
    claim2_suite_test_resolution [tfTestA, tfTestB, tfTestC] tfSuiteACZ
      (by decide)⟩

/-! Claim C3. -/

/-- Claim C3, counterexample: the performance suite `PS` declares the
pattern references `[P, X]` with no record named `X`, and the matched
pattern `P` declares the run references `[R, RR]` with no record named
`RR`; yet resolving `PS` (and the whole construction) logs no warning at
all, contradicting the claim that unresolved references are logged as
warnings at the suite-to-pattern and pattern-to-run levels. -/
theorem claim3_counterexample :
    ((parsePerformanceSuite [tfPerfSuitePS, tfPerfPatternP]
      tfPerfSuitePS).2 = []) ∧
    (parseEntities [tfPerfSuitePS, tfPerfPatternP]).2 = [] := by
  constructor <;> rfl

/-- Claim C3 as amended: an unresolved declared reference is skipped
without any logging at all three levels — suite-to-test, suite-to-pattern
and pattern-to-run alike; as long as a container's declared reference
list is non-empty (and, for a performance suite, every matched pattern
record also declares run references), resolution logs no warning at all,
whether or not any declared name resolves. -/
theorem claim3_missing_refs_silent (files : List TestFile)
    (s q : TestFile)
    (h1 : hasTestsRefs s.config = true)
    (h2 : hasPerfPatternRefs q.config = true)
    (h3 : (files.filter (fun tf =>
        isPerformancePatternConfig tf.config &&
          jsNameMem (getPerfPatternsRefs q.config)
            (getField tf.config "name"))).all
        (fun tf => hasPerfRunsRefs tf.config) = true) :
    (parseFunctionalSuite files s).2 = [] ∧
    (parsePerformanceSuite files q).2 = [] := by
  constructor
  · unfold parseFunctionalSuite
    rw [h1]
    simp
  · unfold parsePerformanceSuite
    rw [h2]
    simp only [if_true]
    rw [List.map_map, List.flatten_eq_nil_iff]
    intro w hw
    simp only [List.mem_map, Function.comp_apply] at hw
    obtain ⟨tf, htf, rfl⟩ := hw
    rw [List.all_eq_true] at h3
    have hruns := h3 tf htf
    unfold parsePerformancePattern
    rw [hruns]
    simp

/-- Claim C3 (amended), witness: with the functional suite `S` declaring
the unmatched name `Z`, the performance suite `PS` declaring the
unmatched pattern name `X` and its matched pattern `P` declaring the
unmatched run name `RR`, resolution logs no warnings. -/
theorem claim3_witness :
    (hasTestsRefs tfSuiteACZ.config = true ∧
      hasPerfPatternRefs tfPerfSuitePS.config = true ∧
      (([tfSuiteACZ, tfTestA, tfPerfSuitePS, tfPerfPatternP].filter
          (fun tf => isPerformancePatternConfig tf.config &&
            jsNameMem (getPerfPatternsRefs tfPerfSuitePS.config)
              (getField tf.config "name"))).all
          (fun tf => hasPerfRunsRefs tf.config) = true)) ∧
    ((parseFunctionalSuite [tfSuiteACZ, tfTestA, tfPerfSuitePS,
        tfPerfPatternP] tfSuiteACZ).2 = [] ∧
      (parsePerformanceSuite [tfSuiteACZ, tfTestA, tfPerfSuitePS,
        tfPerfPatternP] tfPerfSuitePS).2 = []) :=
  ⟨⟨by decide, by decide, by decide⟩,
    claim3_missing_refs_silent
      [tfSuiteACZ, tfTestA, tfPerfSuitePS, tfPerfPatternP]
      tfSuiteACZ tfPerfSuitePS (by decide) (by decide) (by decide)⟩

/-! Claim C5. -/

/-- Claim C5: the constructed entity collection is ordered by phase — all
fixture entities first, then all functional suite entities, then all
performance suite entities — and within each phase the entities carry the
names of their source records in file-discovery order (the order records
appear in the input list), never in any declared reference order. -/
theorem claim5_phase_and_discovery_order (files : List TestFile) :
    ((parseEntities files).1 =
      parseFixtures files ++ (parseFunctionalTests files).1 ++
        (parsePerformanceTests files).1) ∧
    ((parseFixtures files).all (fun e => e.isFixtureEntity) = true) ∧
    (((parseFunctionalTests files).1).all
      (fun e => e.isFunctionalSuiteEntity) = true) ∧
    (((parsePerformanceTests files).1).all
      (fun e => e.isPerformanceSuiteEntity) = true) ∧
    ((parseFixtures files).map Entity.name =
      (files.filter (fun tf =>
        isFixtureConfig tf.config)).map TestFile.name) ∧
    (((parseFunctionalTests files).1).map Entity.name =
      (files.filter (fun tf =>
        isFunctionalSuiteConfig tf.config)).map TestFile.name) ∧
    (((parsePerformanceTests files).1).map Entity.name =
      (files.filter (fun tf =>
        isPerformanceSuiteConfig tf.config)).map TestFile.name) := by
  refine ⟨rfl, ?_, ?_, ?_, ?_, ?_, ?_⟩
  · rw [List.all_eq_true]
    intro e he
    rw [parseFixtures] at he
    simp only [List.mem_map, List.mem_filter] at he
    obtain ⟨tf, _, rfl⟩ := he
    rfl
  · rw [List.all_eq_true]
    intro e he
    rw [parseFunctionalTests] at he
    simp only [List.mem_map, List.mem_filter] at he
    obtain ⟨p, _, rfl⟩ := he
    rfl
  · rw [List.all_eq_true]
    intro e he
    rw [parsePerformanceTests] at he
    simp only [List.mem_map, List.mem_filter] at he
    obtain ⟨p, _, rfl⟩ := he
    rfl
  · rw [parseFixtures, List.map_map]
    rfl
  · rw [parseFunctionalTests]
    simp only [List.map_map]
    apply List.map_congr_left
    intro tf _
    exact parseFunctionalSuite_name files tf
  · rw [parsePerformanceTests]
    simp only [List.map_map]
    apply List.map_congr_left
    intro tf _
    exact parsePerformanceSuite_name files tf

/-- A concrete mixed directory: one fixture, one functional suite with a
matching test, one performance suite with its pattern and run. -/
def filesMixed : List TestFile :=
  [tfFixtureF, tfSuiteACZ, tfTestA, tfPerfSuitePS, tfPerfPatternP,
    tfPerfRunR]

/-- Claim C5, witness: the phase decomposition, the per-phase entity
kinds and the per-phase discovery-order names, on the concrete mixed
directory. -/
theorem claim5_witness :
    ((parseEntities filesMixed).1 =
      parseFixtures filesMixed ++ (parseFunctionalTests filesMixed).1 ++
        (parsePerformanceTests filesMixed).1) ∧
    ((parseFixtures filesMixed).all (fun e => e.isFixtureEntity)
      = true) ∧
    (((parseFunctionalTests filesMixed).1).all
      (fun e => e.isFunctionalSuiteEntity) = true) ∧
    (((parsePerformanceTests filesMixed).1).all
      (fun e => e.isPerformanceSuiteEntity) = true) ∧
    ((parseFixtures filesMixed).map Entity.name =
      (filesMixed.filter (fun tf =>
        isFixtureConfig tf.config)).map TestFile.name) ∧
    (((parseFunctionalTests filesMixed).1).map Entity.name =
      (filesMixed.filter (fun tf =>
        isFunctionalSuiteConfig tf.config)).map TestFile.name) ∧
    (((parsePerformanceTests filesMixed).1).map Entity.name =
      (filesMixed.filter (fun tf =>
        isPerformanceSuiteConfig tf.config)).map TestFile.name) :=
  claim5_phase_and_discovery_order filesMixed

/-! Claim C6. -/

/-- Claim C6: `getFunctionalSuiteBy(argument, value)` scans only the
functional suite entities of the collection, returns the first suite in
collection order whose config field named `argument` is truthy and
strictly equal to `value` (or nothing when no suite matches), and logs
one warning per candidate whose field is falsy — in particular per
candidate on which the field is absent (an absent field reads as
`undefined`, which is falsy), treating it as non-matching; the scan is a
total function, so no candidate makes it throw. -/
theorem claim6_getFunctionalSuiteBy_spec (entities : List Entity)
    (argument : String) (value : JsValue) :
    ((getFunctionalSuiteBy entities argument value).1 =
      (getAllFunctionalSuites entities).find? (fun e =>
        (getField e.config argument).truthy &&
          jsStrictEq (getField e.config argument) value)) ∧
    ((getFunctionalSuiteBy entities argument value).2.length =
      (getAllFunctionalSuites entities).countP
        (fun e => !(getField e.config argument).truthy)) ∧
    (getAllFunctionalSuites entities =
      entities.filter (fun e => e.isFunctionalSuiteEntity)) :=
  ⟨getFunctionalSuiteBy_fst entities argument value,
    getFunctionalSuiteBy_snd_length entities argument value, rfl⟩

/-- Claim C6, witness: the query characterisation instantiated on the
collection built from the concrete mixed directory, querying the config
field `name` for the value `S`. -/
theorem claim6_witness :
    (((getFunctionalSuiteBy (parseEntities filesMixed).1 "name"
        (JsValue.vStr "S")).1 =
      (getAllFunctionalSuites (parseEntities filesMixed).1).find?
        (fun e => (getField e.config "name").truthy &&
          jsStrictEq (getField e.config "name") (JsValue.vStr "S"))) ∧
    ((getFunctionalSuiteBy (parseEntities filesMixed).1 "name"
        (JsValue.vStr "S")).2.length =
      (getAllFunctionalSuites (parseEntities filesMixed).1).countP
        (fun e => !(getField e.config "name").truthy)) ∧
    (getAllFunctionalSuites (parseEntities filesMixed).1 =
      (parseEntities filesMixed).1.filter
        (fun e => e.isFunctionalSuiteEntity))) :=
  claim6_getFunctionalSuiteBy_spec (parseEntities filesMixed).1 "name"
    (JsValue.vStr "S")

/-! Claim C7. -/

/-- Claim C7: a performance suite with a non-empty declared pattern list
acquires, per `performancePattern`-classified record whose config name
appears in the declared list, one freshly instantiated performance
pattern entity; a pattern with a non-empty declared run list acquires,
per `performanceRun`-classified record whose config name appears in that
list, one freshly instantiated performance run entity; and construction
appends exactly one performance suite entity per `performanceSuite`
record, so unresolved references at either level (which simply fail the
filters) never abort construction and partial structures are valid. -/
theorem claim7_two_level_resolution (files : List TestFile)
    (s pf : TestFile)
    (h : hasPerfPatternRefs s.config = true)
    (hpf : hasPerfRunsRefs pf.config = true) :
    ((parsePerformanceSuite files s).1.patterns =
      (files.filter (fun tf =>
        isPerformancePatternConfig tf.config &&
          jsNameMem (getPerfPatternsRefs s.config)
            (getField tf.config "name"))).map
        (fun tf => (parsePerformancePattern files tf).1)) ∧
    ((parsePerformancePattern files pf).1.runs =
      (files.filter (fun tf =>
        isPerformanceRunConfig tf.config &&
          jsNameMem (getPerfRunsRefs pf.config)
            (getField tf.config "name"))).map
        mkPerformanceRunEntity) ∧
    ((parsePerformanceTests files).1.length =
      (files.filter (fun tf =>
        isPerformanceSuiteConfig tf.config)).length) := by
  refine ⟨?_, ?_, ?_⟩
  · unfold parsePerformanceSuite
    rw [h]
    simp [List.map_map]
  · unfold parsePerformancePattern
    rw [hpf]
    simp
  · rw [parsePerformanceTests]
    simp [List.length_map]

/-- Claim C7, witness: the suite `PS` declaring `[P, X]` (no record named
`X`) resolves to exactly one pattern `P`, which in turn — declaring
`[R, RR]` with no record named `RR` — resolves to exactly the runs of the
two records named `R`; construction still yields one suite entity. -/
theorem claim7_witness :
    (hasPerfPatternRefs tfPerfSuitePS.config = true ∧
      hasPerfRunsRefs tfPerfPatternP.config = true) ∧
    (((parsePerformanceSuite [tfPerfSuitePS, tfPerfPatternP, tfPerfRunR,
          tfPerfRunR2] tfPerfSuitePS).1.patterns =
        ([tfPerfSuitePS, tfPerfPatternP, tfPerfRunR,
            tfPerfRunR2].filter (fun tf =>
          isPerformancePatternConfig tf.config &&
            jsNameMem (getPerfPatternsRefs tfPerfSuitePS.config)
              (getField tf.config "name"))).map
          (fun tf => (parsePerformancePattern [tfPerfSuitePS,
            tfPerfPatternP, tfPerfRunR, tfPerfRunR2] tf).1)) ∧
      ((parsePerformancePattern [tfPerfSuitePS, tfPerfPatternP,
          tfPerfRunR, tfPerfRunR2] tfPerfPatternP).1.runs =
        ([tfPerfSuitePS, tfPerfPatternP, tfPerfRunR,
            tfPerfRunR2].filter (fun tf =>
          isPerformanceRunConfig tf.config &&
            jsNameMem (getPerfRunsRefs tfPerfPatternP.config)
              (getField tf.config "name"))).map
          mkPerformanceRunEntity) ∧
      ((parsePerformanceTests [tfPerfSuitePS, tfPerfPatternP, tfPerfRunR,
          tfPerfRunR2]).1.length =
        ([tfPerfSuitePS, tfPerfPatternP, tfPerfRunR,
            tfPerfRunR2].filter (fun tf =>
          isPerformanceSuiteConfig tf.config)).length)) :=
  ⟨⟨by decide, by decide⟩,
    claim7_two_level_resolution
      [tfPerfSuitePS, tfPerfPatternP, tfPerfRunR, tfPerfRunR2]
      tfPerfSuitePS tfPerfPatternP (by decide) (by decide)⟩

/-! Claim C8. -/

/-- Claim C8: for every entity manager built by the standard construction
pipeline, `getIndieFunctionalTests` returns the empty sequence — no phase
of construction ever appends a bare functional test entity to the
top-level collection; every appended entity is a fixture, a functional
suite or a performance suite. -/
theorem claim8_no_indie_functional_tests (files : List TestFile) :
    getIndieFunctionalTests (parseEntities files).1 = [] ∧
    ((parseEntities files).1.all (fun e =>
      e.isFixtureEntity || e.isFunctionalSuiteEntity ||
        e.isPerformanceSuiteEntity) = true) := by
  constructor
  · unfold getIndieFunctionalTests
    rw [List.filter_eq_nil_iff]
    intro e he
    show ¬((isFunctionalTestConfig e.config && e.hasNoSuiteRefs) = true)
    have hnot : isFunctionalTestConfig e.config = false := by
      change e ∈ parseFixtures files ++ (parseFunctionalTests files).1 ++
        (parsePerformanceTests files).1 at he
      simp only [List.mem_append] at he
      rcases he with (he | he) | he
      · rw [parseFixtures] at he
        simp only [List.mem_map, List.mem_filter] at he
        obtain ⟨tf, ⟨_, htf⟩, rfl⟩ := he
        rw [isFixtureConfig, beq_iff_eq] at htf
        show isFunctionalTestConfig tf.config = false
        rw [isFunctionalTestConfig, htf]
        decide
      · rw [parseFunctionalTests] at he
        simp only [List.mem_map, List.mem_filter] at he
        obtain ⟨p, ⟨tf, ⟨_, htf⟩, hps⟩, rfl⟩ := he
        show isFunctionalTestConfig p.1.config = false
        rw [← hps, parseFunctionalSuite_config]
        have htype : getField tf.config "type" = JsValue.vStr "suite" := by
          simpa [isFunctionalSuiteConfig] using htf
        rw [isFunctionalTestConfig, htype]
        decide
      · rw [parsePerformanceTests] at he
        simp only [List.mem_map, List.mem_filter] at he
        obtain ⟨p, ⟨tf, ⟨_, htf⟩, hps⟩, rfl⟩ := he
        show isFunctionalTestConfig p.1.config = false
        rw [← hps, parsePerformanceSuite_config]
        have htype : getField tf.config "type" = JsValue.vStr "perfSuite" := by
          simpa [isPerformanceSuiteConfig] using htf
        rw [isFunctionalTestConfig, htype]
        decide
    simp [hnot]
  · show (parseFixtures files ++ (parseFunctionalTests files).1 ++
      (parsePerformanceTests files).1).all _ = true
    rw [List.all_append, List.all_append]
    simp only [Bool.and_eq_true]
    refine ⟨⟨?_, ?_⟩, ?_⟩ <;> rw [List.all_eq_true] <;> intro e he
    · rw [parseFixtures] at he
      simp only [List.mem_map, List.mem_filter] at he
      obtain ⟨tf, _, rfl⟩ := he
      rfl
    · rw [parseFunctionalTests] at he
      simp only [List.mem_map, List.mem_filter] at he
      obtain ⟨p, _, rfl⟩ := he
      rfl
    · rw [parsePerformanceTests] at he
      simp only [List.mem_map, List.mem_filter] at he
      obtain ⟨p, _, rfl⟩ := he
      rfl

/-- Claim C8, witness: on the concrete mixed directory — which contains a
`functionalTest`-classified record attached to a suite — the collection
still exposes no independent functional tests, and every top-level entity
is a fixture, functional suite or performance suite. -/
theorem claim8_witness :
    getIndieFunctionalTests (parseEntities filesMixed).1 = [] ∧
    ((parseEntities filesMixed).1.all (fun e =>
      e.isFixtureEntity || e.isFunctionalSuiteEntity ||
        e.isPerformanceSuiteEntity) = true) :=
  claim8_no_indie_functional_tests filesMixed

/-! Claim C9. -/

/-- Claim C9: inside `getFunctionalSuiteBy`, a functional suite whose
config carries the named field with a falsy value (`false`, `0`, `""` or
`null`) is handled exactly like a suite missing the field: the
missing-field warning fires (so at least one warning is logged) and the
candidate never matches, so the query can never return that suite — even
when the queried value is strictly equal to the stored field value. -/
theorem claim9_falsy_field_never_matches (entities : List Entity)
    (argument : String) (value : JsValue) (e : Entity)
    (hmem : e ∈ entities)
    (hfs : e.isFunctionalSuiteEntity = true)
    (hfalsy : (getField e.config argument).truthy = false) :
    ((getFunctionalSuiteBy entities argument value).1 ≠ some e) ∧
    (1 ≤ (getFunctionalSuiteBy entities argument value).2.length) := by
  constructor
  · intro heq
    rw [getFunctionalSuiteBy_fst] at heq
    have hmatch := List.find?_some heq
    rw [suiteMatch, Bool.and_eq_true] at hmatch
    rw [hfalsy] at hmatch
    exact Bool.false_ne_true hmatch.1
  · rw [getFunctionalSuiteBy_snd_length]
    have hmem2 : e ∈ getAllFunctionalSuites entities := by
      rw [getAllFunctionalSuites, List.mem_filter]
      exact ⟨hmem, hfs⟩
    have : 0 < (getAllFunctionalSuites entities).countP
        (fun x => !(getField x.config argument).truthy) := by
      rw [List.countP_pos_iff]
      exact ⟨e, hmem2, by rw [hfalsy]; rfl⟩
    omega

/-- The functional suite entity produced for the record `SF`, whose
config field `flag` holds the falsy value `false`. -/
def suiteFalsyEntity : Entity :=
  Entity.functionalSuite
    (parseFunctionalSuite [tfSuiteFalsy, tfTestA] tfSuiteFalsy).1

/-- Claim C9, witness: the collection built from `SF` and test `A`
contains the suite entity for `SF`; querying the field `flag` with the
strictly equal value `false` still cannot return it and logs a
warning. -/
theorem claim9_witness :
    (suiteFalsyEntity ∈ (parseEntities [tfSuiteFalsy, tfTestA]).1 ∧
      suiteFalsyEntity.isFunctionalSuiteEntity = true ∧
      (getField suiteFalsyEntity.config "flag").truthy = false ∧
      jsStrictEq (getField suiteFalsyEntity.config "flag")
        (JsValue.vBool false) = true) ∧
    (((getFunctionalSuiteBy (parseEntities [tfSuiteFalsy, tfTestA]).1
        "flag" (JsValue.vBool false)).1 ≠ some suiteFalsyEntity) ∧
      (1 ≤ (getFunctionalSuiteBy (parseEntities [tfSuiteFalsy,
        tfTestA]).1 "flag" (JsValue.vBool false)).2.length)) :=
  ⟨⟨by decide, by decide, by decide, by decide⟩,
    claim9_falsy_field_never_matches
      (parseEntities [tfSuiteFalsy, tfTestA]).1 "flag"
      (JsValue.vBool false) suiteFalsyEntity
      (by decide) (by decide) (by decide)⟩

/-! Claim C10. -/

/-- Claim C10: reference resolution never deduplicates by name — when a
declared test name `A` is borne by several `functionalTest`-classified
records, the suite acquires one freshly instantiated test entity per such
record (so `n` records named `A` yield `n` attached tests named `A`), and
the analogous multiplicity holds for the performance runs matched by a
pattern's declared run name `B`. -/
theorem claim10_no_dedup_by_name (files : List TestFile)
    (s pf : TestFile) (A B : String)
    (hs : hasTestsRefs s.config = true)
    (hA : (getTestsRefs s.config).contains A = true)
    (hp : hasPerfRunsRefs pf.config = true)
    (hB : (getPerfRunsRefs pf.config).contains B = true) :
    ((parseFunctionalSuite files s).1.tests.countP
        (fun t => t.name == A) =
      files.countP (fun tf =>
        isFunctionalTestConfig tf.config && tf.name == A)) ∧
    ((parsePerformancePattern files pf).1.runs.countP
        (fun r => getField r.config "name" == JsValue.vStr B) =
      files.countP (fun tf =>
        isPerformanceRunConfig tf.config &&
          getField tf.config "name" == JsValue.vStr B)) := by
  have hmemA : A ∈ getTestsRefs s.config := by simpa using hA
  have hmemB : B ∈ getPerfRunsRefs pf.config := by simpa using hB
  constructor
  · unfold parseFunctionalSuite
    rw [hs]
    simp only [Bool.not_true, Bool.false_eq_true, if_false]
    rw [List.countP_map, List.countP_filter, List.countP_filter]
    apply List.countP_congr
    intro tf _
    simp only [Function.comp_apply, decide_eq_true_eq, Bool.and_eq_true,
      beq_iff_eq, mkFunctionalTestEntity]
    by_cases hn : tf.name = A
    · rw [hn]
      simp [hmemA]
    · simp [hn]
  · unfold parsePerformancePattern
    rw [hp]
    simp only [if_true]
    rw [List.countP_map, List.countP_filter]
    apply List.countP_congr
    intro tf _
    simp only [Function.comp_apply, decide_eq_true_eq, Bool.and_eq_true,
      beq_iff_eq, mkPerformanceRunEntity]
    by_cases hn : getField tf.config "name" = JsValue.vStr B
    · rw [hn]
      simp [jsNameMem, hmemB]
    · simp [hn]

/-- Claim C10, witness: two distinct records named `A` (classified as
functional tests) both attach to the suite `S` declaring `A`, and two
distinct records named `R` (classified as performance runs) both attach
to the pattern `P` declaring `R`: each count is 2. -/
theorem claim10_witness :
    (hasTestsRefs tfSuiteACZ.config = true ∧
      (getTestsRefs tfSuiteACZ.config).contains "A" = true ∧
      hasPerfRunsRefs tfPerfPatternP.config = true ∧
      (getPerfRunsRefs tfPerfPatternP.config).contains "R" = true ∧
      tfTestA ≠ tfTestA2 ∧ tfPerfRunR ≠ tfPerfRunR2 ∧
      ((parseFunctionalSuite [tfTestA, tfTestA2, tfPerfRunR, tfPerfRunR2]
        tfSuiteACZ).1.tests.countP (fun t => t.name == "A") = 2) ∧
      ((parsePerformancePattern [tfTestA, tfTestA2, tfPerfRunR,
        tfPerfRunR2] tfPerfPatternP).1.runs.countP
        (fun r => getField r.config "name" == JsValue.vStr "R") = 2)) ∧
    (((parseFunctionalSuite [tfTestA, tfTestA2, tfPerfRunR, tfPerfRunR2]
          tfSuiteACZ).1.tests.countP (fun t => t.name == "A") =
        [tfTestA, tfTestA2, tfPerfRunR, tfPerfRunR2].countP (fun tf =>
          isFunctionalTestConfig tf.config && tf.name == "A")) ∧
      ((parsePerformancePattern [tfTestA, tfTestA2, tfPerfRunR,
            tfPerfRunR2] tfPerfPatternP).1.runs.countP
          (fun r => getField r.config "name" == JsValue.vStr "R") =
        [tfTestA, tfTestA2, tfPerfRunR, tfPerfRunR2].countP (fun tf =>
          isPerformanceRunConfig tf.config &&
            getField tf.config "name" == JsValue.vStr "R"))) :=
  ⟨⟨by decide, by decide, by decide, by decide, by decide, by decide,
      by decide, by decide⟩,
    claim10_no_dedup_by_name
      [tfTestA, tfTestA2, tfPerfRunR, tfPerfRunR2]
      tfSuiteACZ tfPerfPatternP "A" "R"
      (by decide) (by decide) (by decide) (by decide)⟩

end Athena
